import Mathlib

/-
Shallow embedding of the vote-integrity core of the Votingapp repository
(Django project `local_elections`, app `elections`).

The embedding follows `src/elections/models.py`, `src/elections/views.py` and
`src/elections/forms.py`.  Database tables are plain lists of records, foreign
keys are numeric ids, datetimes are integers (a point on a global timeline),
and Django's `ValidationError` dictionaries are lists of (field, message)
pairs.  Fallible operations return `Except`.
-/

namespace Votingapp

/-- Position choices of `Candidate.position_type` (`models.py` lines 279-284). -/
inductive Position where
  | sarpanch
  | wardMember
deriving DecidableEq, Repr

/-- Row of the `District` table (`models.py` lines 85-104): `name` is unique. -/
structure District where
  id : Nat
  name : String
deriving DecidableEq, Repr

/-- Row of the `Mandal` table (`models.py` lines 107-132): FK `district`
with `on_delete=CASCADE`. -/
structure Mandal where
  id : Nat
  district : Nat
  name : String
deriving DecidableEq, Repr

/-- Row of the `Village` table (`models.py` lines 135-166): FK `mandal`
with `on_delete=CASCADE`. -/
structure Village where
  id : Nat
  mandal : Nat
  name : String
deriving DecidableEq, Repr

/-- Row of the `Ward` table (`models.py` lines 169-203): FK `village`
with `on_delete=CASCADE`, `number` unique per village. -/
structure Ward where
  id : Nat
  village : Nat
  number : Nat
deriving DecidableEq, Repr

/-- Row of the `Election` table (`models.py` lines 210-269).  `startTime` and
`endTime` are kept as `Option Int` because `Election.clean` guards on both
fields being set (`if self.start_time and self.end_time`). -/
structure Election where
  id : Nat
  name : String
  startTime : Option Int
  endTime : Option Int
  isActive : Bool
deriving DecidableEq, Repr

/-- Row of the `Candidate` table (`models.py` lines 272-375).  `village` is a
required FK (`on_delete=CASCADE`), `ward` is nullable (`null=True`,
`on_delete=CASCADE`). -/
structure Candidate where
  id : Nat
  election : Nat
  village : Nat
  ward : Option Nat
  fullName : String
  position : Position
deriving DecidableEq, Repr

/-- Row of the `Voter` table (`models.py` lines 389-413): only `mobile_number`
(unique) and audit timestamps.  The model defines no `name` field. -/
structure Voter where
  id : Nat
  mobileNumber : String
deriving DecidableEq, Repr

/-- Row of the `Vote` table (`models.py` lines 416-520).  FKs: `election`,
`village`, `voter` are `CASCADE`; `ward` is nullable `SET_NULL`; the two
candidate FKs are nullable `PROTECT`.  The model defines no
`family_vote_count` field. -/
structure Vote where
  id : Nat
  election : Nat
  village : Nat
  ward : Option Nat
  voter : Nat
  sarpanchCandidate : Option Nat
  wardMemberCandidate : Option Nat
  ipAddress : String
  userAgent : String
deriving DecidableEq, Repr

/-! ### Election status and validation (`models.py` lines 245-269) -/

/-- Embedding of `Election.status` (`models.py` lines 259-269): `"Inactive"` when the
active flag is off, else `"Upcoming"` when `now < start_time`, `"Ended"` when
`now > end_time`, `"Ongoing"` otherwise.  `startTime`/`endTime` are the set
values (the property dereferences them unconditionally). -/
def electionStatus (isActive : Bool) (startTime endTime now : Int) : String :=
  if !isActive then "Inactive"
  else if now < startTime then "Upcoming"
  else if now > endTime then "Ended"
  else "Ongoing"

/-- Embedding of `Election.is_ongoing` (`models.py` lines 253-257). -/
def electionIsOngoing (isActive : Bool) (startTime endTime now : Int) : Bool :=
  isActive && decide (startTime ≤ now) && decide (now ≤ endTime)

/-- Embedding of `Election.clean` (`models.py` lines 245-251): when both times are set and
`end_time <= start_time`, raise a `ValidationError` tagged on `end_time`;
otherwise accept. -/
def electionClean (startTime endTime : Option Int) : List (String × String) :=
  match startTime, endTime with
  | some s, some e =>
      if e ≤ s then [("end_time", "End time must be after start time.")] else []
  | _, _ => []

/-! ### Mobile masking (`models.py` lines 410-413) -/

/-- Embedding of `Voter.masked_mobile` (`models.py` lines 410-413): the Python expression
is the f-string of six asterisks followed by `self.mobile_number[-4:]`, the
last four characters of the stored string. -/
def maskedMobile (mobileNumber : String) : String :=
  "******" ++ mobileNumber.drop (mobileNumber.length - 4)

/-! ### Theorems for claims C5, C10, C8 -/

/-- Claim C5: for every election and every evaluation instant, the derived
status is exactly `"Inactive"` when the active flag is off (regardless of
time); otherwise `"Upcoming"` iff `now < start_time`, `"Ended"` iff
`now > end_time`, and `"Ongoing"` iff `start_time ≤ now ≤ end_time`, so both
boundary instants `now = start_time` and `now = end_time` are classified as
`"Ongoing"`.  Stated for a well-formed time window `start_time ≤ end_time`
(the shape every election passing `Election.clean` has). -/
theorem c5_electionStatus_characterization
    (a : Bool) (s e n : Int) (h : s ≤ e) :
    (electionStatus a s e n = "Inactive" ↔ a = false) ∧
    (electionStatus a s e n = "Upcoming" ↔ a = true ∧ n < s) ∧
    (electionStatus a s e n = "Ended" ↔ a = true ∧ e < n) ∧
    (electionStatus a s e n = "Ongoing" ↔ a = true ∧ s ≤ n ∧ n ≤ e) ∧
    (a = true → electionStatus a s e s = "Ongoing" ∧
      electionStatus a s e e = "Ongoing") := by
  cases a <;>
    simp only [electionStatus] <;>
    split_ifs <;>
    simp_all <;>
    omega

/-- Witness for C5: the §8 example — start at T-1h, end at T+1h, active; at
time T the status is Ongoing, at T-2h Upcoming, at T+2h Ended, and inactive
at time T gives Inactive (times in minutes around T = 0). -/
theorem c5_witness :
    electionStatus true (-60) 60 0 = "Ongoing" ∧
    electionStatus true (-60) 60 (-120) = "Upcoming" ∧
    electionStatus true (-60) 60 120 = "Ended" ∧
    electionStatus false (-60) 60 0 = "Inactive" := by
  have h1 := c5_electionStatus_characterization true (-60) 60 0 (by norm_num)
  have h2 := c5_electionStatus_characterization true (-60) 60 (-120) (by norm_num)
  have h3 := c5_electionStatus_characterization true (-60) 60 120 (by norm_num)
  have h4 := c5_electionStatus_characterization false (-60) 60 0 (by norm_num)
  refine ⟨?_, ?_, ?_, ?_⟩
  · exact h1.2.2.2.1.mpr ⟨rfl, by norm_num, by norm_num⟩
  · exact h2.2.1.mpr ⟨rfl, by norm_num⟩
  · exact h3.2.2.1.mpr ⟨rfl, by norm_num⟩
  · exact h4.1.mpr rfl

/-- Claim C10: for every election with both `start_time` and `end_time` set,
`Election.clean` raises a `ValidationError` tagged on the `end_time` field
exactly when `end_time ≤ start_time`, and accepts the window exactly when
`end_time > start_time`. -/
theorem c10_electionClean_characterization (s e : Int) :
    (electionClean (some s) (some e) =
        [("end_time", "End time must be after start time.")] ↔ e ≤ s) ∧
    (electionClean (some s) (some e) = [] ↔ s < e) := by
  simp only [electionClean]
  constructor
  · split <;> simp_all
  · split <;> simp_all

/-- Claim C8: for every stored 10-digit mobile number, the masked form is
exactly six asterisk characters followed by the last 4 digits, and it never
exposes the first 6 digits: the output equals the constant prefix `"******"`
glued to the last-4 suffix, and any two numbers agreeing on the last 4 digits
mask to the very same string. -/
theorem c8_maskedMobile_masks (m : String) (h : m.length = 10) :
    maskedMobile m = "******" ++ m.drop 6 ∧
    (∀ m2 : String, m2.length = 10 → m.drop 6 = m2.drop 6 →
      maskedMobile m = maskedMobile m2) := by
  constructor
  · simp only [maskedMobile, h]
  · intro m2 h2 hsuf
    simp only [maskedMobile, h, h2, hsuf]

/-- Witness for C8: the two spec examples, `9876543210 → ******3210` and
`6123456789 → ******6789`. -/
theorem c8_witness :
    maskedMobile "9876543210" = "******3210" ∧
    maskedMobile "6123456789" = "******6789" := by
  have h1 := c8_maskedMobile_masks "9876543210" (by decide)
  have h2 := c8_maskedMobile_masks "6123456789" (by decide)
  exact ⟨h1.1.trans (by decide), h2.1.trans (by decide)⟩

/-! ### Candidate validation (`models.py` lines 349-375) -/

/-- Embedding of `Candidate.clean` (`models.py` lines 349-370).  `wardVillage` is the FK
dereference `self.ward.village_id`.  The `village` FK is required on the
model, so the guard `self.village and ...` is always passed. -/
def candidateClean (wardVillage : Nat → Nat) (c : Candidate) : List (String × String) :=
  match c.position with
  | .sarpanch =>
      match c.ward with
      | some _ =>
          [("ward", "Sarpanch candidates should not be assigned to a specific ward.")]
      | none => []
  | .wardMember =>
      match c.ward with
      | none => [("ward", "Ward Member candidates must be assigned to a ward.")]
      | some w =>
          if wardVillage w ≠ c.village then
            [("ward", "Ward must belong to the same village as the candidate.")]
          else []

/-- Embedding of `Candidate.save` (`models.py` lines 372-375): runs `full_clean` first, so
a candidate with validation errors is rejected and never persisted. -/
def candidateSave (wardVillage : Nat → Nat) (table : List Candidate)
    (c : Candidate) : Except (List (String × String)) (List Candidate) :=
  match candidateClean wardVillage c with
  | [] => .ok (table ++ [c])
  | errs => .error errs

/-! ### Vote validation (`models.py` lines 488-520) -/

/-- First half of `Vote.clean` (`models.py` lines 496-503), the `sErrs`
accumulated for the `sarpanch_candidate` field; `cand` is the FK dereference
of a candidate id.  The checks form an if/elif chain, so at most one
message. -/
def voteCleanSarpanch (cand : Nat → Candidate) (v : Vote) : List (String × String) :=
  match v.sarpanchCandidate with
  | none => []
  | some cid =>
      if (cand cid).position ≠ .sarpanch then
        [("sarpanch_candidate", "Selected candidate is not a Sarpanch candidate.")]
      else if (cand cid).election ≠ v.election then
        [("sarpanch_candidate", "Sarpanch candidate is not from this election.")]
      else if (cand cid).village ≠ v.village then
        [("sarpanch_candidate", "Sarpanch candidate is not from this village.")]
      else []

/-- Second half of `Vote.clean` (`models.py` lines 505-512), the errors for
the `ward_member_candidate` field.  The ward-equality check is guarded by
`self.ward and ...`, i.e. skipped when the vote's ward is NULL. -/
def voteCleanWardMember (cand : Nat → Candidate) (v : Vote) : List (String × String) :=
  match v.wardMemberCandidate with
  | none => []
  | some cid =>
      if (cand cid).position ≠ .wardMember then
        [("ward_member_candidate", "Selected candidate is not a Ward Member candidate.")]
      else if (cand cid).election ≠ v.election then
        [("ward_member_candidate", "Ward Member candidate is not from this election.")]
      else if v.ward ≠ none ∧ (cand cid).ward ≠ v.ward then
        [("ward_member_candidate", "Ward Member candidate is not from the selected ward.")]
      else []

/-- Embedding of `Vote.clean` (`models.py` lines 488-515): the collected error dict. -/
def voteClean (cand : Nat → Candidate) (v : Vote) : List (String × String) :=
  voteCleanSarpanch cand v ++ voteCleanWardMember cand v

/-- Embedding of `Vote.save` (`models.py` lines 517-520): runs `full_clean` first, so a
vote with validation errors is rejected and never persisted. -/
def voteSave (cand : Nat → Candidate) (table : List Vote) (v : Vote) :
    Except (List (String × String)) (List Vote) :=
  match voteClean cand v with
  | [] => .ok (table ++ [v])
  | errs => .error errs

/-- Cross-entity property that `Vote.clean` actually accepts (claim C4 as
amended): the ward-equality check on the ward-member candidate applies only
when the vote's own ward is set. -/
def voteInvariant (cand : Nat → Candidate) (v : Vote) : Prop :=
  (∀ cid, v.sarpanchCandidate = some cid →
      (cand cid).position = .sarpanch ∧ (cand cid).election = v.election ∧
      (cand cid).village = v.village) ∧
  (∀ cid, v.wardMemberCandidate = some cid →
      (cand cid).position = .wardMember ∧ (cand cid).election = v.election ∧
      (v.ward ≠ none → (cand cid).ward = v.ward))

/-- The `sErrs` half of `Vote.clean` is empty exactly when the sarpanch
candidate, if set, passes its three checks. -/
theorem voteCleanSarpanch_nil_iff (cand : Nat → Candidate) (v : Vote) :
    voteCleanSarpanch cand v = [] ↔
      ∀ cid, v.sarpanchCandidate = some cid →
        (cand cid).position = .sarpanch ∧ (cand cid).election = v.election ∧
        (cand cid).village = v.village := by
  cases hv : v.sarpanchCandidate with
  | none => simp [voteCleanSarpanch, hv]
  | some cid =>
      simp only [voteCleanSarpanch, hv]
      split_ifs <;> simp_all

/-- The `wErrs` half of `Vote.clean` is empty exactly when the ward-member
candidate, if set, passes its checks (ward equality only demanded when the
vote's ward is set). -/
theorem voteCleanWardMember_nil_iff (cand : Nat → Candidate) (v : Vote) :
    voteCleanWardMember cand v = [] ↔
      ∀ cid, v.wardMemberCandidate = some cid →
        (cand cid).position = .wardMember ∧ (cand cid).election = v.election ∧
        (v.ward ≠ none → (cand cid).ward = v.ward) := by
  cases hv : v.wardMemberCandidate with
  | none => simp [voteCleanWardMember, hv]
  | some cid =>
      simp only [voteCleanWardMember, hv]
      split_ifs <;> simp_all

/-! ### Theorems for claims C3 and C4 -/

/-- Claim C3: `Candidate.clean` accepts a candidate exactly when none of the
three rules is violated — (1) Sarpanch with a ward set, (2) WardMember with no
ward, (3) WardMember whose ward lies in a different village; every raised
error is tagged on the `ward` field; `save` persists exactly the candidates
that pass validation and rejects the rest with the field-tagged errors. -/
theorem c3_candidateClean_characterization (wardVillage : Nat → Nat)
    (c : Candidate) :
    (candidateClean wardVillage c = [] ↔
      ¬ (c.position = .sarpanch ∧ c.ward ≠ none) ∧
      ¬ (c.position = .wardMember ∧ c.ward = none) ∧
      ¬ (c.position = .wardMember ∧
          ∃ w, c.ward = some w ∧ wardVillage w ≠ c.village)) ∧
    (∀ err ∈ candidateClean wardVillage c, err.1 = "ward") ∧
    (∀ table, candidateClean wardVillage c = [] →
        candidateSave wardVillage table c = .ok (table ++ [c])) ∧
    (∀ table, candidateClean wardVillage c ≠ [] →
        candidateSave wardVillage table c = .error (candidateClean wardVillage c)) := by
  obtain ⟨cid, cel, cvil, cward, cname, cpos⟩ := c
  refine ⟨?_, ?_, ?_, ?_⟩
  · cases cpos <;> cases cward <;>
      simp only [candidateClean] <;>
      first
        | (split_ifs <;> simp_all)
        | simp
  · intro err herr
    cases cpos <;> cases cward <;>
      simp only [candidateClean] at herr <;>
      first
        | (split_ifs at herr <;> simp_all)
        | simp_all
  · intro table hclean
    simp [candidateSave, hclean]
  · intro table hclean
    cases hc : candidateClean wardVillage ⟨cid, cel, cvil, cward, cname, cpos⟩ with
    | nil => exact absurd hc hclean
    | cons a l => simp [candidateSave, hc]

/-- Witness for C3: a Sarpanch candidate assigned to a ward is rejected with
the ward-tagged error and is not persisted. -/
theorem c3_witness :
    candidateSave (fun _ => 1) []
      { id := 1, election := 1, village := 1, ward := some 2,
        fullName := "A", position := .sarpanch } =
      .error [("ward", "Sarpanch candidates should not be assigned to a specific ward.")] := by
  have h := c3_candidateClean_characterization (fun _ => 1)
    { id := 1, election := 1, village := 1, ward := some 2,
      fullName := "A", position := .sarpanch }
  have he := h.2.2.2 [] (by decide)
  exact he.trans (congrArg Except.error (by decide))

/-- Claim C4 counterexample: a vote whose ward is NULL but whose ward-member
candidate has a (different, non-null) ward passes `Vote.clean` and is
persisted by `Vote.save`, refuting the claim that every persisted vote's
ward-member candidate has a ward equal to the vote's ward. -/
theorem c4_counterexample :
    voteSave
        (fun _ => { id := 1, election := 1, village := 1, ward := some 1,
                    fullName := "W", position := .wardMember })
        []
        { id := 1, election := 1, village := 1, ward := none, voter := 1,
          sarpanchCandidate := none, wardMemberCandidate := some 1,
          ipAddress := "", userAgent := "" } =
      .ok [{ id := 1, election := 1, village := 1, ward := none, voter := 1,
             sarpanchCandidate := none, wardMemberCandidate := some 1,
             ipAddress := "", userAgent := "" }] ∧
    ((fun (_ : Nat) =>
        ({ id := 1, election := 1, village := 1, ward := some 1,
           fullName := "W", position := .wardMember } : Candidate)) 1).ward ≠
      ({ id := 1, election := 1, village := 1, ward := none, voter := 1,
         sarpanchCandidate := none, wardMemberCandidate := some 1,
         ipAddress := "", userAgent := "" } : Vote).ward := by
  constructor
  · rfl
  · simp

/-- Claim C4 (amended): a vote is persisted by `Vote.save` exactly when it
satisfies the cross-entity invariants actually enforced — the sarpanch
candidate (if set) has position Sarpanch, the vote's election and the vote's
village; the ward-member candidate (if set) has position WardMember, the
vote's election, and, when the vote's ward is set, a ward equal to the vote's
ward (the ward-equality check is skipped for votes with a NULL ward); a vote
violating these is rejected with the field-tagged errors of `Vote.clean` and
not persisted. -/
theorem c4_voteSave_invariants (cand : Nat → Candidate) (table : List Vote)
    (v : Vote) :
    (voteClean cand v = [] ↔ voteInvariant cand v) ∧
    (voteSave cand table v = .ok (table ++ [v]) ↔ voteInvariant cand v) ∧
    (voteClean cand v ≠ [] →
      voteSave cand table v = .error (voteClean cand v)) := by
  have hchar : voteClean cand v = [] ↔ voteInvariant cand v := by
    rw [voteClean, voteInvariant, List.append_eq_nil,
      voteCleanSarpanch_nil_iff, voteCleanWardMember_nil_iff]
  refine ⟨hchar, ?_, ?_⟩
  · rw [← hchar]
    constructor
    · intro hok
      by_contra hne
      cases hc : voteClean cand v with
      | nil => exact hne hc
      | cons a l => simp [voteSave, hc] at hok
    · intro hnil
      simp [voteSave, hnil]
  · intro hne
    cases hc : voteClean cand v with
    | nil => exact absurd hc hne
    | cons a l => simp [voteSave, hc]

/-- Witness for the amended C4 theorem: a ward-member vote whose candidate has
the wrong position is rejected with the field-tagged error and not
persisted. -/
theorem c4_witness :
    voteSave
        (fun _ => { id := 2, election := 1, village := 1, ward := none,
                    fullName := "S", position := .sarpanch })
        []
        { id := 2, election := 1, village := 1, ward := some 4, voter := 2,
          sarpanchCandidate := none, wardMemberCandidate := some 2,
          ipAddress := "", userAgent := "" } =
      .error [("ward_member_candidate", "Selected candidate is not a Ward Member candidate.")] := by
  have h := c4_voteSave_invariants
    (fun _ => { id := 2, election := 1, village := 1, ward := none,
                fullName := "S", position := .sarpanch })
    []
    { id := 2, election := 1, village := 1, ward := some 4, voter := 2,
      sarpanchCandidate := none, wardMemberCandidate := some 2,
      ipAddress := "", userAgent := "" }
  have he := h.2.2 (by decide)
  exact he.trans (congrArg Except.error (by decide))

/-! ### SiteSettings singleton (`models.py` lines 22-78) -/

/-- Data fields of `SiteSettings` (`models.py` lines 27-55). -/
structure SiteSettingsData where
  siteName : String
  siteTagline : String
  footerText : String
  contactEmail : String
  contactPhone : String
  aboutText : String
deriving DecidableEq, Repr

/-- Field defaults of `SiteSettings`, used by `get_or_create`. -/
def siteSettingsDefaults : SiteSettingsData :=
  { siteName := "Local Elections", siteTagline := "Voting System",
    footerText := "Gram Panchayat Elections Management",
    contactEmail := "", contactPhone := "", aboutText := "" }

/-- Embedding of `SiteSettings.save` (`models.py` lines 65-68): `self.pk = 1` is forced
before the write, so whatever primary key the instance carried the row with
key 1 is updated, or inserted when absent; other rows are untouched.  The
`instancePk` argument is the primary key the saved instance carried; the
assignment `self.pk = 1` discards it. -/
def siteSettingsSave (table : List (Nat × SiteSettingsData))
    (_instancePk : Option Nat) (s : SiteSettingsData) :
    List (Nat × SiteSettingsData) :=
  if (table.filter (fun r => r.1 = 1)).isEmpty then table ++ [(1, s)]
  else table.map (fun r => if r.1 = 1 then (1, s) else r)

/-- Embedding of `SiteSettings.delete` (`models.py` lines 70-72): a no-op (`pass`), the
stored row is left in place. -/
def siteSettingsDelete (table : List (Nat × SiteSettingsData)) :
    List (Nat × SiteSettingsData) :=
  table

/-- Embedding of `SiteSettings.get_settings` (`models.py` lines 74-78):
`objects.get_or_create(pk=1)` — return the row with key 1 when it exists,
otherwise insert the defaults under key 1 and return them. -/
def siteSettingsGetSettings (table : List (Nat × SiteSettingsData)) :
    SiteSettingsData × List (Nat × SiteSettingsData) :=
  match table.find? (fun r => r.1 = 1) with
  | some r => (r.2, table)
  | none => (siteSettingsDefaults, table ++ [(1, siteSettingsDefaults)])

/-- The operations the model exposes on the settings table. -/
inductive SiteSettingsOp where
  | save (instancePk : Option Nat) (s : SiteSettingsData)
  | delete
  | getSettings
deriving Repr

/-- One operation applied to the settings table. -/
def siteSettingsStep (table : List (Nat × SiteSettingsData)) :
    SiteSettingsOp → List (Nat × SiteSettingsData)
  | .save pk s => siteSettingsSave table pk s
  | .delete => siteSettingsDelete table
  | .getSettings => (siteSettingsGetSettings table).2

/-- A sequence of operations applied to the settings table. -/
def siteSettingsRun (ops : List SiteSettingsOp)
    (table : List (Nat × SiteSettingsData)) : List (Nat × SiteSettingsData) :=
  ops.foldl siteSettingsStep table

/-- Every single operation preserves the singleton invariant: at most one row,
and every row keyed 1. -/
theorem siteSettingsStep_preserves (t : List (Nat × SiteSettingsData))
    (op : SiteSettingsOp) (h1 : t.length ≤ 1) (h2 : ∀ r ∈ t, r.1 = 1) :
    (siteSettingsStep t op).length ≤ 1 ∧ ∀ r ∈ siteSettingsStep t op, r.1 = 1 := by
  rcases t with _ | ⟨r, _ | ⟨r2, rs⟩⟩
  · cases op <;>
      simp [siteSettingsStep, siteSettingsSave, siteSettingsDelete,
        siteSettingsGetSettings]
  · have hr : r.1 = 1 := h2 r (by simp)
    cases op <;>
      simp [siteSettingsStep, siteSettingsSave, siteSettingsDelete,
        siteSettingsGetSettings, List.find?_cons, hr]
  · simp at h1

/-- Any operation sequence preserves the singleton invariant. -/
theorem siteSettingsRun_preserves (ops : List SiteSettingsOp)
    (t : List (Nat × SiteSettingsData)) (h1 : t.length ≤ 1)
    (h2 : ∀ r ∈ t, r.1 = 1) :
    (siteSettingsRun ops t).length ≤ 1 ∧ ∀ r ∈ siteSettingsRun ops t, r.1 = 1 := by
  induction ops generalizing t with
  | nil => exact ⟨h1, h2⟩
  | cons op ops ih =>
      have h := siteSettingsStep_preserves t op h1 h2
      exact ih (siteSettingsStep t op) h.1 h.2

/-! ### Theorem for claim C9 -/

/-- Claim C9: at most one `SiteSettings` row ever exists — starting from the
empty table, any sequence of save/delete/get_settings operations leaves at
most one row and every row is keyed 1; `save` writes to key 1 no matter which
primary key the instance carried; `get_settings` creates the row on first
access and returns the stored row unchanged thereafter; `delete` leaves the
table untouched. -/
theorem c9_siteSettings_singleton :
    (∀ ops : List SiteSettingsOp,
        (siteSettingsRun ops []).length ≤ 1 ∧
        ∀ r ∈ siteSettingsRun ops [], r.1 = 1) ∧
    (∀ table pk pk2 s,
        siteSettingsSave table pk s = siteSettingsSave table pk2 s) ∧
    (∀ table, siteSettingsDelete table = table) ∧
    (∀ table, table.find? (fun x => x.1 = 1) = none →
        siteSettingsGetSettings table =
          (siteSettingsDefaults, table ++ [(1, siteSettingsDefaults)])) ∧
    (∀ table r, table.find? (fun x => x.1 = 1) = some r →
        siteSettingsGetSettings table = (r.2, table)) := by
  refine ⟨?_, ?_, ?_, ?_, ?_⟩
  · intro ops
    exact siteSettingsRun_preserves ops [] (by simp) (by simp)
  · intro _ _ _ _
    rfl
  · intro _
    rfl
  · intro table h
    simp [siteSettingsGetSettings, h]
  · intro table r h
    simp [siteSettingsGetSettings, h]

/-- Witness for C9: on the empty table the first access creates the default
row, and a save of an instance carrying primary key 7 still lands on key 1. -/
theorem c9_witness :
    siteSettingsGetSettings [] = (siteSettingsDefaults, [(1, siteSettingsDefaults)]) ∧
    siteSettingsSave [] (some 7) siteSettingsDefaults =
      siteSettingsSave [] none siteSettingsDefaults := by
  constructor
  · exact c9_siteSettings_singleton.2.2.2.1 [] (by rfl)
  · exact c9_siteSettings_singleton.2.1 [] (some 7) none siteSettingsDefaults


/-! ### Vote submission (`views.py` lines 180-243) -/

/-- Names of the fields the `Vote` model declares (`models.py` lines 425-476,
plus the implicit `id` primary key and the auto `created_at`).  Django's model
constructor accepts exactly these as keyword arguments and raises `TypeError`
for any other name. -/
def voteModelFieldNames : List String :=
  ["id", "election", "village", "ward", "voter", "sarpanch_candidate",
   "ward_member_candidate", "ip_address", "user_agent", "created_at"]

/-- Keyword arguments `VotingView.process_vote` passes to
`Vote.objects.create` (`views.py` lines 216-226). -/
def processVoteCreateKwargs : List String :=
  ["election", "village", "ward", "voter", "sarpanch_candidate",
   "ward_member_candidate", "family_vote_count", "ip_address", "user_agent"]

/-- Whether the `Vote.objects.create` call in `process_vote` raises
`TypeError`: true when some keyword argument is not a declared field of the
`Vote` model. -/
def voteCreateRaisesTypeError : Bool :=
  processVoteCreateKwargs.any (fun k => !(voteModelFieldNames.contains k))

/-- Cleaned data of `VotingForm` for a submission (`forms.py` lines 84-160):
the required candidate/ward choices, the optional voter name (empty string
when not supplied), the mobile number and the family vote count. -/
structure CleanedVotingForm where
  sarpanchCandidate : Nat
  ward : Nat
  wardMemberCandidate : Nat
  voterName : String
  mobileNumber : String
  familyVoteCount : Nat
deriving DecidableEq, Repr

/-- Embedding of `mobile_validator` (`forms.py` lines 16-19, same regex in `models.py`
lines 383-386): ten digits, the first one of 6, 7, 8, 9. -/
def mobileNumberValid (m : String) : Bool :=
  (m.length == 10) && m.data.all (fun c => c.isDigit) &&
    (match m.data with
     | [] => false
     | c :: _ => c == '6' || c == '7' || c == '8' || c == '9')

/-- The observable outcome of one `process_vote` call. -/
inductive VoteSubmissionOutcome where
  /-- The vote row was inserted; success message, redirect to thank-you. -/
  | recorded (v : Vote)
  /-- The duplicate branch: error message, no insert attempted. -/
  | duplicateVote
  /-- `voter.name` was read but `models.Voter` declares no `name` field:
  the request dies with `AttributeError`. -/
  | nameAttributeError
  /-- `Vote.objects.create` was called with a keyword argument that is not a
  `Vote` model field: the request dies with `TypeError`. -/
  | createTypeError
deriving DecidableEq, Repr

/-- The tables `process_vote` touches. -/
structure VoteDB where
  voters : List Voter
  votes : List Vote
deriving DecidableEq, Repr

/-- Embedding of `VotingView.process_vote` (`views.py` lines 180-243) on validated form
data, for the election and village held by the view.  Steps, in source
order: `Voter.objects.get_or_create(mobile_number=...)` (the fresh id models
the autoincrement primary key); the name-backfill block, which reads
`voter.name` and therefore raises `AttributeError` whenever a non-empty
`voter_name` was submitted, because the `Voter` model has no `name` field;
the `(election, voter, village)` existence check, failing with the
duplicate-vote message; and `Vote.objects.create(...)`, which raises
`TypeError` when one of its keyword arguments (here `family_vote_count`) is
not a `Vote` model field, and otherwise inserts the row. -/
def processVote (db : VoteDB) (election village : Nat)
    (form : CleanedVotingForm) (ip userAgent : String) (nextVoteId : Nat) :
    VoteDB × VoteSubmissionOutcome :=
  let found := db.voters.find? (fun v => v.mobileNumber == form.mobileNumber)
  let voter :=
    match found with
    | some v => v
    | none => { id := db.voters.length + 1, mobileNumber := form.mobileNumber }
  let db1 :=
    match found with
    | some _ => db
    | none => { db with voters := db.voters ++ [voter] }
  if form.voterName ≠ "" then (db1, .nameAttributeError)
  else if db1.votes.any (fun w =>
      w.election == election && w.voter == voter.id && w.village == village) then
    (db1, .duplicateVote)
  else if voteCreateRaisesTypeError then (db1, .createTypeError)
  else
    let v : Vote :=
      { id := nextVoteId, election := election, village := village,
        ward := some form.ward, voter := voter.id,
        sarpanchCandidate := some form.sarpanchCandidate,
        wardMemberCandidate := some form.wardMemberCandidate,
        ipAddress := ip, userAgent := userAgent.take 500 }
    ({ db1 with votes := db1.votes ++ [v] }, .recorded v)

/-! ### Theorems for claims C1 and C2 -/

/-- A voter on record with one vote in election 1, village 1. -/
def c1Db : VoteDB :=
  { voters := [{ id := 1, mobileNumber := "9876543210" }],
    votes := [{ id := 1, election := 1, village := 1, ward := some 1,
                voter := 1, sarpanchCandidate := some 1,
                wardMemberCandidate := some 2,
                ipAddress := "10.0.0.1", userAgent := "agent" }] }

/-- A validated re-submission by the same voter (no name supplied). -/
def c1Form : CleanedVotingForm :=
  { sarpanchCandidate := 1, ward := 1, wardMemberCandidate := 2,
    voterName := "", mobileNumber := "9876543210", familyVoteCount := 1 }

/-- Claim C1, settled against the code: the duplicate half behaves as claimed
— a second submission for the same `(election, voter, village)` triple takes
the duplicate-vote branch and writes nothing — but the success half diverges:
for the same voter and election with a different village (no matching Vote
row, so by the claim a distinct new row must be created) `process_vote`
reaches `Vote.objects.create`, which raises `TypeError` because it is passed
`family_vote_count`, a keyword that is not a field of the `Vote` model, so no
row is ever written. -/
theorem c1_duplicate_check_and_create_divergence :
    processVote c1Db 1 1 c1Form "10.0.0.1" "agent" 2 = (c1Db, .duplicateVote) ∧
    c1Db.votes.any (fun w =>
      w.election == 1 && w.voter == 1 && w.village == 2) = false ∧
    processVote c1Db 1 2 c1Form "10.0.0.1" "agent" 2 = (c1Db, .createTypeError) := by
  refine ⟨by decide, by decide, by decide⟩

/-- A validated first-time submission satisfying the §4.3 preconditions
(fresh voter, well-formed mobile number, family vote count in range). -/
def c2Form : CleanedVotingForm :=
  { sarpanchCandidate := 1, ward := 1, wardMemberCandidate := 2,
    voterName := "", mobileNumber := "6123456789", familyVoteCount := 5 }

/-- Claim C2, settled against the code: a submission meeting the stated
preconditions (well-formed mobile number, `1 ≤ family_vote_count ≤ 20`,
fresh voter — no prior Vote for the election/village) does not persist a
Vote row: `process_vote` passes `family_vote_count` to `Vote.objects.create`
but the `Vote` model declares no such field, so the call raises `TypeError`;
the voter row created by `get_or_create` is left behind and the vote table
stays empty. -/
theorem c2_valid_submission_never_persists :
    mobileNumberValid "6123456789" = true ∧
    (1 ≤ c2Form.familyVoteCount ∧ c2Form.familyVoteCount ≤ 20) ∧
    "family_vote_count" ∈ processVoteCreateKwargs ∧
    "family_vote_count" ∉ voteModelFieldNames ∧
    processVote { voters := [], votes := [] } 1 1 c2Form "10.0.0.2" "agent" 1 =
      ({ voters := [{ id := 1, mobileNumber := "6123456789" }], votes := [] },
        .createTypeError) := by
  refine ⟨by decide, by decide, by decide, by decide, by decide⟩

/-! ### Results aggregation (`views.py` lines 316-392) -/

/-- Annotated tally of a sarpanch candidate:
`Count('sarpanch_votes', filter=Q(sarpanch_votes__election=election))`
(`views.py` lines 354-355). -/
def sarpanchVoteCount (votes : List Vote) (election cid : Nat) : Nat :=
  (votes.filter (fun w =>
    w.sarpanchCandidate == some cid && w.election == election)).length

/-- Annotated tally of a ward-member candidate (`views.py` lines 366-367). -/
def wardMemberVoteCount (votes : List Vote) (election cid : Nat) : Nat :=
  (votes.filter (fun w =>
    w.wardMemberCandidate == some cid && w.election == election)).length

/-- Stable insertion used to model an SQL ORDER BY: `a` goes in front of the
first element `b` with `le a b`; on ties the earlier-stored row stays first. -/
def insertByLe {α : Type} (le : α → α → Bool) (a : α) : List α → List α
  | [] => [a]
  | b :: l => if le a b then a :: b :: l else b :: insertByLe le a l

/-- Stable sort by `le`, the determinization of an SQL ORDER BY: rows ordered
by `le`, ties kept in stored order. -/
def sortByLe {α : Type} (le : α → α → Bool) : List α → List α
  | [] => []
  | a :: l => insertByLe le a (sortByLe le l)

/-- Comparison for `ORDER BY vote_count DESC`: row `a` may precede row `b`
when its count is at least `b`'s. -/
def voteCountGe (a b : Candidate × Nat) : Bool :=
  decide (b.2 ≤ a.2)

/-- Embedding of `.order_by('-vote_count')` (`views.py` lines 356 and 368): the SQL sorts
by descending count only; tie order is left unspecified by the query, so the
embedding determinizes it to the stored row order (a stable sort). -/
def orderByVoteCountDesc (rows : List (Candidate × Nat)) : List (Candidate × Nat) :=
  sortByLe voteCountGe rows

/-- The sarpanch block of `VillageResultsView.get` (`views.py` lines
349-356): candidates of the election and village with position Sarpanch,
annotated with their vote count, ordered by descending count. -/
def sarpanchResults (candidates : List Candidate) (votes : List Vote)
    (election village : Nat) : List (Candidate × Nat) :=
  orderByVoteCountDesc
    ((candidates.filter (fun c =>
        c.election == election && c.village == village &&
        c.position == Position.sarpanch)).map
      (fun c => (c, sarpanchVoteCount votes election c.id)))

/-- The ward loop of `VillageResultsView.get` (`views.py` lines 359-379):
wards of the village ordered by number, each with its ward-member candidates
annotated and ordered by descending count, and the ward's total vote count. -/
def wardResults (wards : List Ward) (candidates : List Candidate)
    (votes : List Vote) (election village : Nat) :
    List (Ward × List (Candidate × Nat) × Nat) :=
  (sortByLe (fun a b => decide (a.number ≤ b.number))
      (wards.filter (fun w => w.village == village))).map
    (fun w =>
      (w,
       orderByVoteCountDesc
         ((candidates.filter (fun c =>
             c.election == election && c.ward == some w.id &&
             c.position == Position.wardMember)).map
           (fun c => (c, wardMemberVoteCount votes election c.id))),
       (votes.filter (fun x =>
         x.election == election && x.ward == some w.id)).length))

/-- Inserting keeps exactly the old rows plus the new one. -/
theorem insertByLe_perm {α : Type} (le : α → α → Bool) (a : α) (l : List α) :
    (insertByLe le a l).Perm (a :: l) := by
  induction l with
  | nil => exact List.Perm.refl _
  | cons b l ih =>
      simp only [insertByLe]
      split
      · exact List.Perm.refl _
      · exact (List.Perm.cons b ih).trans (List.Perm.swap a b l)

/-- The stable sort is a permutation of its input. -/
theorem sortByLe_perm {α : Type} (le : α → α → Bool) (l : List α) :
    (sortByLe le l).Perm l := by
  induction l with
  | nil => exact List.Perm.refl _
  | cons a l ih =>
      exact (insertByLe_perm le a (sortByLe le l)).trans (ih.cons a)

/-- Inserting into a `le`-ordered list keeps it ordered, for a transitive
comparison that is total in the sense that `le b a` holds whenever `le a b`
fails. -/
theorem insertByLe_pairwise {α : Type} (le : α → α → Bool)
    (htrans : ∀ a b c, le a b = true → le b c = true → le a c = true)
    (htot : ∀ a b, le a b = false → le b a = true)
    (a : α) (l : List α) (h : l.Pairwise (fun x y => le x y = true)) :
    (insertByLe le a l).Pairwise (fun x y => le x y = true) := by
  induction l with
  | nil => simp [insertByLe]
  | cons b l ih =>
      rw [List.pairwise_cons] at h
      simp only [insertByLe]
      split
      · rename_i hab
        refine List.pairwise_cons.mpr ⟨?_, List.pairwise_cons.mpr h⟩
        intro x hx
        rcases List.mem_cons.mp hx with hxb | hxl
        · exact hxb ▸ hab
        · exact htrans a b x hab (h.1 x hxl)
      · rename_i hab
        refine List.pairwise_cons.mpr ⟨?_, ih h.2⟩
        intro x hx
        have hx2 : x ∈ a :: l := (insertByLe_perm le a l).mem_iff.mp hx
        rcases List.mem_cons.mp hx2 with hxa | hxl
        · exact hxa ▸ htot a b (Bool.of_not_eq_true hab)
        · exact h.1 x hxl

/-- The stable sort orders its output by `le`. -/
theorem sortByLe_pairwise {α : Type} (le : α → α → Bool)
    (htrans : ∀ a b c, le a b = true → le b c = true → le a c = true)
    (htot : ∀ a b, le a b = false → le b a = true)
    (l : List α) :
    (sortByLe le l).Pairwise (fun x y => le x y = true) := by
  induction l with
  | nil => simp [sortByLe]
  | cons a l ih => exact insertByLe_pairwise le htrans htot a _ ih

/-- The modelled `ORDER BY vote_count DESC` yields counts in descending
order. -/
theorem orderByVoteCountDesc_sorted (rows : List (Candidate × Nat)) :
    List.Pairwise (fun a b : Candidate × Nat => b.2 ≤ a.2)
      (orderByVoteCountDesc rows) := by
  have h := sortByLe_pairwise voteCountGe
    (fun a b c hab hbc => by
      simp only [voteCountGe, decide_eq_true_eq] at hab hbc ⊢
      omega)
    (fun a b hab => by
      simp only [voteCountGe, decide_eq_false_iff_not, decide_eq_true_eq] at hab ⊢
      omega)
    rows
  exact h.imp (fun hab => by simpa [voteCountGe] using hab)

/-! ### Theorems for claim C7 -/

/-- Two sarpanch candidates for election 1, village 1, stored with the
lexicographically larger name first. -/
def c7Candidates : List Candidate :=
  [{ id := 1, election := 1, village := 1, ward := none,
     fullName := "Bob", position := .sarpanch },
   { id := 2, election := 1, village := 1, ward := none,
     fullName := "Alice", position := .sarpanch }]

/-- Claim C7 counterexample: with no votes cast both candidates tie at zero,
and the aggregator returns them in stored order — `"Bob"` before `"Alice"` —
although ordering ties by name would put `"Alice"` (initial 'A') before
`"Bob"` (initial 'B'): `order_by('-vote_count')` carries no secondary name
key, so equal counts are not broken by name. -/
theorem c7_counterexample :
    (sarpanchResults c7Candidates [] 1 1).map (fun p => (p.1.fullName, p.2)) =
      [("Bob", 0), ("Alice", 0)] ∧
    (sarpanchResults c7Candidates [] 1 1).map (fun p => p.1.fullName) ≠
      ["Alice", "Bob"] ∧
    "Alice".get ⟨0⟩ < "Bob".get ⟨0⟩ := by
  refine ⟨by decide, by decide, by decide⟩

/-- Claim C7 (amended): for a given election and village the aggregator
returns exactly the Sarpanch candidates (annotated with their tallies) and,
per ward, the WardMember candidates, ordered by descending vote count only —
the relative order of candidates with equal counts is not adjusted by name
(the SQL leaves tie order unspecified; the embedding keeps stored order). -/
theorem c7_results_sorted_by_count (candidates : List Candidate)
    (votes : List Vote) (wards : List Ward) (election village : Nat) :
    List.Pairwise (fun a b : Candidate × Nat => b.2 ≤ a.2)
      (sarpanchResults candidates votes election village) ∧
    (sarpanchResults candidates votes election village).Perm
      ((candidates.filter (fun c =>
          c.election == election && c.village == village &&
          c.position == Position.sarpanch)).map
        (fun c => (c, sarpanchVoteCount votes election c.id))) ∧
    (∀ entry ∈ wardResults wards candidates votes election village,
      List.Pairwise (fun a b : Candidate × Nat => b.2 ≤ a.2) entry.2.1 ∧
      entry.2.1.Perm
        ((candidates.filter (fun c =>
            c.election == election && c.ward == some entry.1.id &&
            c.position == Position.wardMember)).map
          (fun c => (c, wardMemberVoteCount votes election c.id)))) := by
  refine ⟨orderByVoteCountDesc_sorted _, sortByLe_perm _ _, ?_⟩
  intro entry hentry
  simp only [wardResults, List.mem_map] at hentry
  obtain ⟨w, _, rfl⟩ := hentry
  exact ⟨orderByVoteCountDesc_sorted _, sortByLe_perm _ _⟩

/-- Witness for the amended C7 theorem at a concrete state: the sarpanch
results for the two stored candidates, and the (empty) candidate list of the
village's single ward. -/
theorem c7_witness :
    List.Pairwise (fun a b : Candidate × Nat => b.2 ≤ a.2)
      (sarpanchResults c7Candidates [] 1 1) ∧
    List.Pairwise (fun a b : Candidate × Nat => b.2 ≤ a.2)
      ((({ id := 5, village := 1, number := 1 } : Ward),
        ([] : List (Candidate × Nat)), (0 : Nat)).2.1) := by
  have h := c7_results_sorted_by_count c7Candidates []
    [{ id := 5, village := 1, number := 1 }] 1 1
  exact ⟨h.1,
    (h.2.2 ({ id := 5, village := 1, number := 1 }, [], 0) (by decide)).1⟩

/-! ### Cascade deletion (FK graph of `models.py`; Django delete collector)

The FK graph relevant to deleting a location row:
`Mandal.district`, `Village.mandal`, `Ward.village`, `Candidate.village`,
`Candidate.ward`, `Vote.village` are `on_delete=CASCADE`;
`Vote.ward` is `on_delete=SET_NULL`;
`Vote.sarpanch_candidate` and `Vote.ward_member_candidate` are
`on_delete=PROTECT` (`models.py` lines 437-466).
Django's collector raises `ProtectedError` whenever any row references a
collected row through a `PROTECT` key — unlike `RESTRICT`, `PROTECT` grants
no exemption to referencing rows that are themselves being deleted in the
same cascade. -/

/-- The full location/candidacy/vote state touched by a cascade delete. -/
structure LocationDB where
  districts : List District
  mandals : List Mandal
  villages : List Village
  wards : List Ward
  candidates : List Candidate
  votes : List Vote
deriving DecidableEq, Repr

/-- The row a delete is invoked on. -/
inductive DeleteTarget where
  | district (id : Nat)
  | mandal (id : Nat)
  | village (id : Nat)
deriving DecidableEq, Repr

/-- District rows collected by the cascade. -/
def deletedDistrictIds : DeleteTarget → List Nat
  | .district i => [i]
  | _ => []

/-- Mandal rows collected by the cascade (`Mandal.district` CASCADE). -/
def deletedMandalIds (db : LocationDB) : DeleteTarget → List Nat
  | .district i =>
      ((db.mandals.filter (fun m => m.district == i)).map (fun m => m.id))
  | .mandal i => [i]
  | .village _ => []

/-- Village rows collected by the cascade (`Village.mandal` CASCADE). -/
def deletedVillageIds (db : LocationDB) (t : DeleteTarget) : List Nat :=
  match t with
  | .village i => [i]
  | _ =>
      (db.villages.filter (fun v =>
        (deletedMandalIds db t).contains v.mandal)).map (fun v => v.id)

/-- Ward rows collected by the cascade (`Ward.village` CASCADE). -/
def deletedWardIds (db : LocationDB) (t : DeleteTarget) : List Nat :=
  (db.wards.filter (fun w =>
    (deletedVillageIds db t).contains w.village)).map (fun w => w.id)

/-- Candidate rows collected by the cascade (`Candidate.village` and
`Candidate.ward` are both CASCADE). -/
def deletedCandidateIds (db : LocationDB) (t : DeleteTarget) : List Nat :=
  (db.candidates.filter (fun c =>
    (deletedVillageIds db t).contains c.village ||
      (match c.ward with
       | some wid => (deletedWardIds db t).contains wid
       | none => false))).map (fun c => c.id)

/-- Whether collecting the candidates trips a `PROTECT` key: true when any
vote row references a collected candidate through `sarpanch_candidate` or
`ward_member_candidate` — including votes that the same cascade would
delete. -/
def votesProtect (db : LocationDB) (t : DeleteTarget) : Bool :=
  db.votes.any (fun w =>
    (match w.sarpanchCandidate with
     | some c => (deletedCandidateIds db t).contains c
     | none => false) ||
    (match w.wardMemberCandidate with
     | some c => (deletedCandidateIds db t).contains c
     | none => false))

/-- The error the delete aborts with. -/
inductive DeleteOutcome where
  | protectedError
deriving DecidableEq, Repr

/-- The state after a successful cascade: the collected rows removed, the
votes of the collected villages removed, and the `ward` of surviving votes
pointing at a collected ward nulled (`SET_NULL`). -/
def deleteLocationResult (db : LocationDB) (t : DeleteTarget) : LocationDB :=
  { districts :=
      db.districts.filter (fun d => !(deletedDistrictIds t).contains d.id),
    mandals :=
      db.mandals.filter (fun m => !(deletedMandalIds db t).contains m.id),
    villages :=
      db.villages.filter (fun v => !(deletedVillageIds db t).contains v.id),
    wards :=
      db.wards.filter (fun w => !(deletedWardIds db t).contains w.id),
    candidates :=
      db.candidates.filter (fun c => !(deletedCandidateIds db t).contains c.id),
    votes :=
      (db.votes.filter (fun w =>
        !(deletedVillageIds db t).contains w.village)).map
        (fun w =>
          match w.ward with
          | some wid =>
              if (deletedWardIds db t).contains wid then
                { w with ward := none }
              else w
          | none => w) }

/-- Deleting a District, Mandal or Village: collect the CASCADE closure;
abort with `ProtectedError` (deleting nothing) when a vote row references a
collected candidate; otherwise apply the cascade. -/
def deleteLocation (db : LocationDB) (t : DeleteTarget) :
    Except DeleteOutcome LocationDB :=
  if votesProtect db t then .error .protectedError
  else .ok (deleteLocationResult db t)

/-! ### Theorems for claim C6 -/

/-- A district with one mandal, village, ward, a sarpanch candidate, and one
vote for that candidate — the ordinary state of a village that has voted. -/
def c6Db : LocationDB :=
  { districts := [{ id := 1, name := "D" }],
    mandals := [{ id := 1, district := 1, name := "M" }],
    villages := [{ id := 1, mandal := 1, name := "V" }],
    wards := [{ id := 1, village := 1, number := 1 }],
    candidates := [{ id := 1, election := 1, village := 1, ward := none,
                     fullName := "S", position := .sarpanch }],
    votes := [{ id := 1, election := 1, village := 1, ward := some 1,
                voter := 1, sarpanchCandidate := some 1,
                wardMemberCandidate := none,
                ipAddress := "", userAgent := "" }] }

/-- Claim C6 counterexample: deleting the district of a village that has a
vote for one of its candidates does not cascade — the vote references the
collected candidate through a `PROTECT` key, so the delete aborts with
`ProtectedError` and none of the descendant rows is deleted. -/
theorem c6_counterexample :
    deleteLocation c6Db (.district 1) = .error .protectedError ∧
    c6Db.villages.length = 1 ∧ c6Db.candidates.length = 1 ∧
    c6Db.votes.length = 1 := by
  refine ⟨rfl, rfl, rfl, rfl⟩

/-- Membership in the id list of a filtered table. -/
theorem mem_idList {α : Type} (l : List α) (p : α → Bool) (key : α → Nat)
    (x : α) (hx : x ∈ l) (hp : p x = true) :
    key x ∈ (l.filter p).map key :=
  List.mem_map_of_mem key (List.mem_filter.mpr ⟨hx, hp⟩)

/-- Claim C6 (amended): deleting a District, Mandal or Village removes every
descendant location row and every Candidate and Vote attached to them —
leaving no Mandal, Village, Ward, Candidate or Vote row that references a
deleted location (votes outside the deleted villages that pointed at a
deleted ward get their ward nulled) — provided no Vote row references a
Candidate of the deleted subtree through the `PROTECT` candidate keys; when
such a reference exists (which it does whenever any vote names one of the
subtree's candidates, even a vote the cascade itself would remove) the delete
raises `ProtectedError` and removes nothing. -/
theorem c6_delete_cascades (db : LocationDB) (t : DeleteTarget)
    (h : votesProtect db t = false) :
    ∃ db2, deleteLocation db t = .ok db2 ∧
      (∀ d ∈ db2.districts, d.id ∉ deletedDistrictIds t) ∧
      (∀ m ∈ db2.mandals,
        m.id ∉ deletedMandalIds db t ∧ m.district ∉ deletedDistrictIds t) ∧
      (∀ v ∈ db2.villages,
        v.id ∉ deletedVillageIds db t ∧ v.mandal ∉ deletedMandalIds db t) ∧
      (∀ w ∈ db2.wards,
        w.id ∉ deletedWardIds db t ∧ w.village ∉ deletedVillageIds db t) ∧
      (∀ c ∈ db2.candidates,
        c.id ∉ deletedCandidateIds db t ∧
        c.village ∉ deletedVillageIds db t ∧
        ∀ wid, c.ward = some wid → wid ∉ deletedWardIds db t) ∧
      (∀ w ∈ db2.votes,
        w.village ∉ deletedVillageIds db t ∧
        ∀ wid, w.ward = some wid → wid ∉ deletedWardIds db t) := by
  refine ⟨deleteLocationResult db t, ?_, ?_, ?_, ?_, ?_, ?_, ?_⟩
  · unfold deleteLocation
    rw [h]
    rfl
  · intro d hd
    simp only [deleteLocationResult] at hd
    have := (List.mem_filter.mp hd).2
    simpa using this
  · intro m hm
    simp only [deleteLocationResult] at hm
    obtain ⟨hmem, hflt⟩ := List.mem_filter.mp hm
    have hid : m.id ∉ deletedMandalIds db t := by simpa using hflt
    refine ⟨hid, fun hdist => hid ?_⟩
    cases t with
    | district i =>
        have hdi : m.district = i := by simpa [deletedDistrictIds] using hdist
        exact mem_idList db.mandals _ (fun m => m.id) m hmem
          (by simp [hdi])
    | mandal i => simp [deletedDistrictIds] at hdist
    | village i => simp [deletedDistrictIds] at hdist
  · intro v hv
    simp only [deleteLocationResult] at hv
    obtain ⟨hmem, hflt⟩ := List.mem_filter.mp hv
    have hid : v.id ∉ deletedVillageIds db t := by simpa using hflt
    refine ⟨hid, fun hman => hid ?_⟩
    cases t with
    | district i =>
        exact mem_idList db.villages _ (fun v => v.id) v hmem
          (by simpa using hman)
    | mandal i =>
        exact mem_idList db.villages _ (fun v => v.id) v hmem
          (by simpa using hman)
    | village i => simp [deletedMandalIds] at hman
  · intro w hw
    simp only [deleteLocationResult] at hw
    obtain ⟨hmem, hflt⟩ := List.mem_filter.mp hw
    have hid : w.id ∉ deletedWardIds db t := by simpa using hflt
    refine ⟨hid, fun hvil => hid ?_⟩
    exact mem_idList db.wards _ (fun w => w.id) w hmem (by simpa using hvil)
  · intro c hc
    simp only [deleteLocationResult] at hc
    obtain ⟨hmem, hflt⟩ := List.mem_filter.mp hc
    have hid : c.id ∉ deletedCandidateIds db t := by simpa using hflt
    refine ⟨hid, fun hvil => hid ?_, fun wid hwid hward => hid ?_⟩
    · exact mem_idList db.candidates _ (fun c => c.id) c hmem
        (by simp [hvil])
    · exact mem_idList db.candidates _ (fun c => c.id) c hmem
        (by simp [hwid, hward])
  · intro w hw
    simp only [deleteLocationResult, List.mem_map] at hw
    obtain ⟨w0, hw0, rfl⟩ := hw
    obtain ⟨hmem, hflt⟩ := List.mem_filter.mp hw0
    constructor
    · cases hward : w0.ward with
      | none => simpa [hward] using hflt
      | some wid =>
          simp only [hward]
          split <;> simpa [hward] using hflt
    · intro wid hwid
      cases hward : w0.ward with
      | none => simp [hward] at hwid
      | some wid0 =>
          simp only [hward] at hwid
          split at hwid
          · simp at hwid
          · rename_i hnot
            have : wid0 = wid := by simpa [hward] using hwid
            subst this
            simpa using hnot

/-- A district whose village has a candidate but whose recorded votes name no
candidate; one outside village holds a vote pointing at the doomed ward. -/
def c6WitnessDb : LocationDB :=
  { districts := [{ id := 1, name := "D" }],
    mandals := [{ id := 1, district := 1, name := "M" }],
    villages := [{ id := 1, mandal := 1, name := "V" },
                 { id := 2, mandal := 9, name := "V2" }],
    wards := [{ id := 1, village := 1, number := 1 }],
    candidates := [{ id := 1, election := 1, village := 1, ward := none,
                     fullName := "S", position := .sarpanch }],
    votes := [{ id := 1, election := 1, village := 2, ward := some 1,
                voter := 1, sarpanchCandidate := none,
                wardMemberCandidate := none,
                ipAddress := "", userAgent := "" }] }

/-- Witness for the amended C6 theorem: on `c6WitnessDb` no vote trips the
PROTECT keys and deleting the district succeeds. -/
theorem c6_witness :
    votesProtect c6WitnessDb (.district 1) = false ∧
    (deleteLocation c6WitnessDb (.district 1)).isOk = true := by
  refine ⟨by decide, ?_⟩
  obtain ⟨db2, hok, _⟩ :=
    c6_delete_cascades c6WitnessDb (.district 1) (by decide)
  rw [hok]
  rfl

end Votingapp
